import Mathlib

/-!
Shallow embedding of the referral-lifecycle and reporting engine of the
SSMO clinical-referral application (src/app.py), together with theorems
settling the specification claims about it.

Python strings are Lean `String`s, nullable columns are `Option`s,
`datetime` values are encoded as natural numbers (minutes on a
calendar-linear scale), and each Flask handler's business logic is a pure
function from its inputs (current records, parsed request fields) to the
updated records and an outcome value describing the handler's response.
-/

namespace SSMO

/-- Row of the `cases` table (class `Case` in app.py). -/
structure Case where
  id : Nat
  created_at : Nat
  form_id : Nat
  status : String
  prioridad : Option String
  atendido : Bool
  sender_center_user_id : Option Nat
  accepted_by_cosam_user_id : Option Nat
deriving Repr, DecidableEq

/-- Row of the `return_events` table (class `ReturnEvent` in app.py). -/
structure ReturnEvent where
  case_id : Nat
  reason : Option String
deriving Repr, DecidableEq

/-- Row of the `appointments` table (class `Appointment` in app.py). -/
structure Appointment where
  id : Nat
  case_id : Nat
  scheduled_at : Nat
  doctor : String
  place : String
  notes : String
deriving Repr, DecidableEq

/-- Python `x or d` for an optional string field: `None` and `""` are falsy. -/
def pyOr (v : Option String) (d : String) : String :=
  match v with
  | none => d
  | some s => if s = "" then d else s

/-! Python's string primitives (`lower`, `strip`, `split`, `int`, `join`),
as structural functions on the character list of a `String`, so that every
definition below evaluates inside the kernel. -/

/-- Python `s.lower()` (ASCII case folding). -/
def strLower (s : String) : String := ⟨s.data.map Char.toLower⟩

/-- Python `s.strip()`: drop whitespace from both ends. -/
def strTrim (s : String) : String :=
  ⟨((s.data.dropWhile Char.isWhitespace).reverse.dropWhile
      Char.isWhitespace).reverse⟩

/-- Split a character list on a separator character. -/
def splitChar (sep : Char) : List Char → List (List Char)
  | [] => [[]]
  | c :: rest =>
    let r := splitChar sep rest
    if c = sep then [] :: r
    else
      match r with
      | [] => [[c]]
      | h :: t => (c :: h) :: t

/-- Python `s.split(sep)` for a one-character separator. -/
def strSplitOn (sep : Char) (s : String) : List String :=
  (splitChar sep s.data).map (fun cs => ⟨cs⟩)

/-- The numeric value of a non-empty all-digit character list. -/
def decDigits? (l : List Char) : Option Nat :=
  if l ≠ [] ∧ l.all Char.isDigit then
    some (l.foldl (fun n c => n * 10 + (c.toNat - 48)) 0)
  else none

/-- Parse an unsigned decimal string. -/
def strToNat? (s : String) : Option Nat := decDigits? s.data

/-- Python `sep.join(parts)`. -/
def strJoinSep (sep : String) : List String → String
  | [] => ""
  | [x] => x
  | x :: xs => x ++ sep ++ strJoinSep sep xs

/-- The valid priority set `{"bajo", "medio", "alto"}` used by `cosam_accept`
and by the submission handler. -/
def validPriorities : List String := ["bajo", "medio", "alto"]

/-- Outcome of the `cosam_accept` POST handler: either the flash
"Ficha aceptada" plus redirect (success) or the flash "Prioridad inválida"
(the form is re-rendered and nothing is written). -/
inductive AcceptResult where
  | accepted
  | invalidPriority
deriving Repr, DecidableEq

/-- Business logic of the POST branch of `cosam_accept` (app.py):
lower-case the submitted `prioridad`; if it is not in
{bajo, medio, alto} flash an error and leave the row untouched, otherwise
set `prioridad`, set `status := "aceptado"` and record the accepting user.
The handler performs no check on the current `status` of the Case. -/
def cosam_accept (c : Case) (prioridadRaw : Option String) (uid : Nat) :
    Case × AcceptResult :=
  let prioridad := strLower (pyOr prioridadRaw "")
  if prioridad ∈ validPriorities then
    ({ c with
        prioridad := some prioridad,
        status := "aceptado",
        accepted_by_cosam_user_id := some uid }, AcceptResult.accepted)
  else
    (c, AcceptResult.invalidPriority)

/-- Business logic of `cosam_attend` (app.py): unconditionally set
`atendido := true` and `status := "atendido"`. -/
def cosam_attend (c : Case) : Case :=
  { c with atendido := true, status := "atendido" }

/-- Business logic of the POST branch of `cosam_return` (app.py):
unconditionally set `status := "devuelto"` and append a `ReturnEvent`
whose reason is the stripped submitted text, or NULL when blank. -/
def cosam_return (c : Case) (reasonRaw : Option String) : Case × ReturnEvent :=
  let reason := strTrim (pyOr reasonRaw "")
  ({ c with status := "devuelto" },
   { case_id := c.id, reason := if reason = "" then none else some reason })

/-- Case created by the submission handler in `formulario` (app.py):
`status := "enviado"`, and the suggested priority is kept only when it is
one of {bajo, medio, alto} (otherwise the column stays NULL). -/
def submitCase (formId cid t : Nat) (senderId : Nat) (prioRaw : Option String) :
    Case :=
  let prio := strLower (pyOr prioRaw "")
  { id := cid
    created_at := t
    form_id := formId
    status := "enviado"
    prioridad := if prio ∈ validPriorities then some prio else none
    atendido := false
    sender_center_user_id := some senderId
    accepted_by_cosam_user_id := none }

/-- One cosam lifecycle operation applied to a Case. -/
inductive CosamOp where
  | accept (prioridadRaw : Option String) (uid : Nat)
  | attend
  | ret (reasonRaw : Option String)
deriving Repr, DecidableEq

/-- State change each operation performs on the Case row. -/
def applyOp (c : Case) : CosamOp → Case
  | CosamOp.accept p uid => (cosam_accept c p uid).1
  | CosamOp.attend => cosam_attend c
  | CosamOp.ret r => (cosam_return c r).1

/-- Sequence of `status` values observed while running a list of
operations on a Case, starting from its current status. -/
def statusTrace (c : Case) : List CosamOp → List String
  | [] => [c.status]
  | op :: ops => c.status :: statusTrace (applyOp c op) ops

/-- The four status values used by the application. -/
def allStatuses : List String := ["enviado", "aceptado", "atendido", "devuelto"]

/-! ### Triage ordering (cosam_inbox / cosam_pacientes) -/

/-- The SQL `case((prioridad == "alto", 0), (prioridad == "medio", 1), else_=2)`
expression used as first sort key of both triage views.  A NULL `prioridad`
falls through to the `else_` branch. -/
def priorityRank (p : Option String) : Nat :=
  if p = some "alto" then 0 else if p = some "medio" then 1 else 2

/-- The ordering realised by `order_by(porder, Case.created_at.desc())`:
priority rank ascending, then creation time descending. -/
def triageOrder (a b : Case) : Prop :=
  priorityRank a.prioridad < priorityRank b.prioridad ∨
    (priorityRank a.prioridad = priorityRank b.prioridad ∧ b.created_at ≤ a.created_at)

instance : DecidableRel triageOrder := fun a b => by
  unfold triageOrder; infer_instance

instance : IsTotal Case triageOrder := by
  constructor
  intro a b
  unfold triageOrder
  omega

instance : IsTrans Case triageOrder := by
  constructor
  intro a b c h1 h2
  unfold triageOrder at h1 h2 ⊢
  omega

/-- The `cosam_inbox` query: Cases with `status == "enviado"`, ordered by
priority rank ascending then `created_at` descending. -/
def cosam_inbox (cases : List Case) : List Case :=
  List.insertionSort triageOrder (cases.filter (fun c => c.status == "enviado"))

/-- The `cosam_pacientes` query: Cases with `status == "aceptado"` and
`atendido == False`, ordered by priority rank ascending then `created_at`
descending. -/
def cosam_pacientes (cases : List Case) : List Case :=
  List.insertionSort triageOrder
    (cases.filter (fun c => c.status == "aceptado" && c.atendido == false))

/-! ### Scheduling conflict checker (_validate_schedule_slot) -/

/-- Flash message produced on a doctor double-booking. -/
def doctorConflictMsg (doctor : String) : String :=
  doctor ++ " ya tiene una hora asignada en ese bloque."

/-- Flash message produced on a room double-booking. -/
def placeConflictMsg (place : String) : String :=
  "El " ++ place ++ " ya está ocupado en ese bloque horario."

/-- The `base` query of `_validate_schedule_slot`: Appointments at exactly
`when`, excluding those of `ignore_case_id` when that argument is truthy
(Python `if ignore_case_id:` — `None` and `0` are falsy). -/
def slotBase (appointments : List Appointment) (when : Nat)
    (ignore_case_id : Option Nat) : List Appointment :=
  let base := appointments.filter (fun a => a.scheduled_at == when)
  match ignore_case_id with
  | some cid => if cid ≠ 0 then base.filter (fun a => a.case_id != cid) else base
  | none => base

/-- `_validate_schedule_slot` (app.py): doctor conflict first, then room
conflict, `none` when the slot is free.  Returns the flash message. -/
def validate_schedule_slot (appointments : List Appointment) (when : Nat)
    (doctor place : String) (ignore_case_id : Option Nat) : Option String :=
  let base := slotBase appointments when ignore_case_id
  match base.find? (fun a => a.doctor == doctor) with
  | some _ => some (doctorConflictMsg doctor)
  | none =>
    match base.find? (fun a => a.place == place) with
    | some _ => some (placeConflictMsg place)
    | none => none

/-! ### `datetime.strptime` parsing

Dates are encoded as minutes on the scale
`((y * 372 + (m - 1) * 31 + (d - 1)) * 24 + hh) * 60 + mm`, which is
strictly monotone on valid calendar dates and on which adding one day is
adding `1440`. -/

/-- Minute encoding of a calendar datetime. -/
def dateMinutes (y m d hh mm : Nat) : Nat :=
  ((y * 372 + (m - 1) * 31 + (d - 1)) * 24 + hh) * 60 + mm

/-- Gregorian leap-year test, as applied by `datetime`. -/
def isLeap (y : Nat) : Bool :=
  y % 4 == 0 && (y % 100 != 0 || y % 400 == 0)

/-- Number of days of month `m` of year `y`. -/
def daysInMonth (y m : Nat) : Nat :=
  if m = 2 then (if isLeap y then 29 else 28)
  else if m = 4 ∨ m = 6 ∨ m = 9 ∨ m = 11 then 30
  else 31

/-- A 1–2 digit numeric field with an inclusive range bound, as matched by
the `%m`, `%d`, `%H`, `%M` directives of `strptime`. -/
def parseField2 (s : String) (lo hi : Nat) : Option Nat :=
  if 1 ≤ s.length ∧ s.length ≤ 2 then
    match strToNat? s with
    | some n => if lo ≤ n ∧ n ≤ hi then some n else none
    | none => none
  else none

/-- The `%Y` directive: exactly four digits, year at least `MINYEAR = 1`. -/
def parseYear (s : String) : Option Nat :=
  if s.length = 4 then
    match strToNat? s with
    | some n => if 1 ≤ n then some n else none
    | none => none
  else none

/-- `datetime.strptime(s, "%Y-%m-%d")`, including the calendar check that
the day exists in the given month; `none` models the `ValueError`. -/
def strptimeYMD (s : String) : Option (Nat × Nat × Nat) :=
  match strSplitOn '-' s with
  | [ys, ms, ds] =>
    match parseYear ys, parseField2 ms 1 12, parseField2 ds 1 31 with
    | some y, some m, some d =>
        if d ≤ daysInMonth y m then some (y, m, d) else none
    | _, _, _ => none
  | _ => none

/-- `datetime.strptime(s, "%H:%M")` fields of a `"%Y-%m-%d %H:%M"` parse. -/
def strptimeHM (s : String) : Option (Nat × Nat) :=
  match strSplitOn ':' s with
  | [hs, ms] =>
    match parseField2 hs 0 23, parseField2 ms 0 59 with
    | some h, some m => some (h, m)
    | _, _ => none
  | _ => none

/-- `datetime.strptime(s, "%Y-%m-%d %H:%M")`, returning the minute
encoding of the parsed datetime. -/
def strptimeYMDHM (s : String) : Option Nat :=
  match strSplitOn ' ' s with
  | [dpart, tpart] =>
    match strptimeYMD dpart, strptimeHM tpart with
    | some (y, m, d), some (hh, mm) => some (dateMinutes y m d hh mm)
    | _, _ => none
  | _ => none

/-! ### Schedule / reschedule handlers -/

/-- The fixed doctor roster `APPOINTMENT_DOCTORS` of app.py. -/
def APPOINTMENT_DOCTORS : List String := ["Dr. A", "Dr. B", "Dr. C", "Dr. D", "Dr. E"]

/-- The fixed room roster `APPOINTMENT_PLACES` of app.py. -/
def APPOINTMENT_PLACES : List String := ["Box 1", "Box 2", "Box 3", "Box 4", "Box 5"]

/-- Fields of a schedule/reschedule HTTP request. -/
structure ScheduleRequest where
  method : String
  date : Option String
  time : Option String
  place : Option String
  doctor : Option String
  notes : Option String
deriving Repr, DecidableEq

/-- Response of the `cosam_reschedule` handler. -/
inductive ScheduleOutcome where
  /-- `redirect(url_for("cosam_schedule", case_id=case_id))`. -/
  | redirectSchedule
  /-- An error flash plus re-rendering of the schedule form. -/
  | formError (msg : String)
  /-- Success: flash "Hora actualizada" and redirect to `cosam_pacientes`. -/
  | updated
  /-- Plain GET with an existing appointment: render the pre-filled form. -/
  | renderForm
deriving Repr, DecidableEq

/-- Business logic of `cosam_reschedule` (app.py).  `ap` is the Case's
existing Appointment, if any; `appointments` is the full appointment table
used by the conflict check; the returned Appointment is the Case's
appointment after the request. -/
def cosam_reschedule (caso : Case) (ap : Option Appointment)
    (appointments : List Appointment) (req : ScheduleRequest) (newId : Nat) :
    ScheduleOutcome × Option Appointment :=
  if ap = none ∧ req.method = "GET" then
    (ScheduleOutcome.redirectSchedule, ap)
  else if req.method = "POST" then
    let date_str := strTrim (pyOr req.date "")
    let time_str := strTrim (pyOr req.time "")
    let place := strTrim (pyOr req.place "")
    let doctor := strTrim (pyOr req.doctor "")
    let notes := strTrim (pyOr req.notes "")
    if doctor ∉ APPOINTMENT_DOCTORS then
      (ScheduleOutcome.formError "Seleccione un médico válido.", ap)
    else if place ∉ APPOINTMENT_PLACES then
      (ScheduleOutcome.formError "Seleccione un box válido.", ap)
    else
      match strptimeYMDHM (date_str ++ " " ++ time_str) with
      | none => (ScheduleOutcome.formError "Fecha/hora inválida", ap)
      | some when =>
        match validate_schedule_slot appointments when doctor place (some caso.id) with
        | some conflict => (ScheduleOutcome.formError conflict, ap)
        | none =>
          match ap with
          | some a =>
            (ScheduleOutcome.updated,
             some { a with scheduled_at := when, place := place,
                           doctor := doctor, notes := notes })
          | none =>
            (ScheduleOutcome.updated,
             some { id := newId, case_id := caso.id, scheduled_at := when,
                    doctor := doctor, place := place, notes := notes })
  else
    (ScheduleOutcome.renderForm, ap)

/-! ### Medical forms and the dimension-extractor registry -/

/-- Row of the `medical_forms` table (class `MedicalForm` in app.py),
restricted to the columns the reporting engine reads. -/
structure MedicalForm where
  id : Nat
  created_at : Nat
  comuna : Option String
  sexo : Option String
  edad : Option String
  es_ges : Option String
  tipo_consulta : Option String
  patologias_ges : Option String
deriving Repr, DecidableEq

/-- Python `s or d` for a (non-optional) string: `""` is falsy. -/
def pyOrS (s d : String) : String := if s = "" then d else s

/-- `MedicalForm.patologias_ges_lista` (app.py): split the semicolon list,
strip each entry, drop blanks; `[]` when the column is NULL or empty. -/
def patologias_ges_lista (f : MedicalForm) : List String :=
  match f.patologias_ges with
  | none => []
  | some s =>
    if s = "" then []
    else ((strSplitOn ';' s).map strTrim).filter (fun item => item ≠ "")

/-- `_form_es_ges` (app.py): GES when the pathology list is non-empty, or
when the stripped lower-cased `es_ges` field reads si / sí / s?. -/
def form_es_ges (f : MedicalForm) : Bool :=
  ((pyOr f.patologias_ges "") != "" && !(patologias_ges_lista f).isEmpty) ||
    (let valor := strLower (strTrim (pyOr f.es_ges ""))
     valor == "si" || valor == "sí" || valor == "s?")

/-- Python `int(s)` on a string: optional sign, decimal digits, surrounding
whitespace tolerated; `none` models the `ValueError`. -/
def pyInt (s : String) : Option Int :=
  match (strTrim s).data with
  | '-' :: rest => (decDigits? rest).map (fun n => -(n : Int))
  | '+' :: rest => (decDigits? rest).map (fun n => (n : Int))
  | l => (decDigits? l).map (fun n => (n : Int))

/-- `_age_bucket` (app.py). -/
def age_bucket (value : Option String) : String :=
  match pyInt (pyOr value "") with
  | none => "Sin dato"
  | some edad_int =>
    if edad_int < 15 then "< 15"
    else if edad_int < 25 then "15-24"
    else if edad_int < 45 then "25-44"
    else if edad_int < 65 then "45-64"
    else "65+"

/-- `_normalize_tipo_consulta` (app.py). -/
def normalize_tipo_consulta (valor : String) : String :=
  let val := strLower (strTrim valor)
  if val = "presencial" ∨ val = "prescencial" then "Presencial"
  else if val = "telemedicina" then "Telemedicina"
  else if val = "otro" then "Otro"
  else "Otro"

/-- `ATTRIBUTE_CONFIG` (app.py): the fixed registry mapping a dimension
key to its display label and its extractor. -/
def attributeConfig (key : String) :
    Option (String × (MedicalForm → Case → String)) :=
  if key = "comuna" then
    some ("Comuna", fun f _ => pyOrS (strTrim (pyOr f.comuna "Sin comuna")) "Sin comuna")
  else if key = "sexo" then
    some ("Sexo", fun f _ => pyOrS (strTrim (pyOr f.sexo "Sin dato")) "Sin dato")
  else if key = "edad_tramo" then
    some ("Tramo de edad", fun f _ => age_bucket f.edad)
  else if key = "es_ges" then
    some ("GES / No GES", fun f _ => if form_es_ges f then "GES" else "No GES")
  else if key = "tipo_consulta" then
    some ("Tipo de consulta",
      fun f _ => normalize_tipo_consulta (pyOr f.tipo_consulta "Sin dato"))
  else if key = "patologia_ges" then
    some ("Patología GES",
      fun f _ => (patologias_ges_lista f).headD "Sin patología GES")
  else none

/-- The keys of `ATTRIBUTE_CONFIG`. -/
def attributeKeys : List String :=
  ["comuna", "sexo", "edad_tramo", "es_ges", "tipo_consulta", "patologia_ges"]

/-- `_metric_label` (app.py). -/
def metric_label (key : Option String) : String :=
  match key with
  | none => "Categoría"
  | some k =>
    if k = "" then "Categoría"
    else
      match attributeConfig k with
      | some cfg => cfg.1
      | none => k

/-- `_get_conf` inside `_build_metric_dataset` (app.py):
`ATTRIBUTE_CONFIG.get(key, (key, lambda *_: "Sin dato"))`. -/
def getConf (key : String) : String × (MedicalForm → Case → String) :=
  (attributeConfig key).getD (key, fun _ _ => "Sin dato")

/-! ### Metric-key parsing -/

/-- The query parameters `_parse_metric_keys` reads. -/
structure MetricParams where
  metric : Option String
  metric2 : Option String
  metric3 : Option String
deriving Repr, DecidableEq

/-- One iteration of the accumulation loop of `_parse_metric_keys`:
keep the stripped value when it is non-empty, a registry key, and not
already selected. -/
def metricStep (keys : List String) (raw : Option String) : List String :=
  let val := strTrim (raw.getD "")
  if val ≠ "" ∧ (attributeConfig val).isSome ∧ val ∉ keys then keys ++ [val]
  else keys

/-- `_parse_metric_keys` (app.py): accumulate over metric, metric2,
metric3; default to `["comuna"]`; truncate to the chart shape's limit. -/
def parse_metric_keys (p : MetricParams) (chart_type : Option String) :
    List String :=
  let keys := metricStep (metricStep (metricStep [] p.metric) p.metric2) p.metric3
  let keys := if keys = [] then ["comuna"] else keys
  if chart_type = some "pie" then keys.take 1
  else if chart_type = some "bar" then keys.take 2
  else if chart_type = some "line" then keys.take 1
  else keys

/-! ### The aggregation engine -/

/-- One chart data series (`{"label": ..., "data": [...]}`).  All values
flowing through the engine are counts, hence naturals. -/
structure Dataset where
  label : String
  data : List Nat
deriving Repr, DecidableEq

/-- The `(labels, values, title, datasets)` quadruple returned by
`_build_metric_dataset`. -/
structure MetricDataset where
  labels : List String
  values : List Nat
  title : String
  datasets : List Dataset
deriving Repr, DecidableEq

/-- Lexicographic comparison of character lists by code point — the
ordering Python `sorted` applies to strings. -/
def charListLe : List Char → List Char → Bool
  | [], _ => true
  | _ :: _, [] => false
  | a :: as, b :: bs =>
    if a < b then true
    else if a = b then charListLe as bs
    else false

/-- Python string comparison. -/
def strLe (a b : String) : Bool := charListLe a.data b.data

/-- `sorted(...)` over the distinct members of a Python set collected from
a list: dedup then sort by the code-point lexicographic string order. -/
def sortedDedup (l : List String) : List String :=
  List.insertionSort (fun a b => strLe a b = true) l.dedup

/-- `strftime("%Y-%m")` on the minute encoding. -/
def periodOfMinutes (t : Nat) : String :=
  let days := t / 1440
  let y := days / 372
  let m := (days % 372) / 31 + 1
  toString y ++ "-" ++ (if m < 10 then "0" ++ toString m else toString m)

/-- The `chart_type == "line"` branch of `_build_metric_dataset`. -/
def build_metric_line (filas : List (MedicalForm × Case))
    (metric_keys : List String) : MetricDataset :=
  let metric_key := metric_keys.headD "comuna"
  let conf := getConf metric_key
  let labels := sortedDedup (filas.map (fun rc => periodOfMinutes rc.1.created_at))
  let categories := sortedDedup (filas.map (fun rc => conf.2 rc.1 rc.2))
  let datasets := categories.map (fun cat =>
    { label := cat,
      data := labels.map (fun p => filas.countP (fun rc =>
        conf.2 rc.1 rc.2 == cat && periodOfMinutes rc.1.created_at == p)) })
  let values :=
    if datasets.isEmpty then []
    else (List.range labels.length).map (fun idx =>
      (datasets.map (fun ds => ds.data.getD idx 0)).sum)
  { labels := labels, values := values,
    title := "Evolución mensual por " ++ conf.1, datasets := datasets }

/-- The two-key `chart_type == "bar"` branch of `_build_metric_dataset`. -/
def build_metric_bar2 (filas : List (MedicalForm × Case))
    (key_x key_group : String) : MetricDataset :=
  let confx := getConf key_x
  let confg := getConf key_group
  let labels := sortedDedup (filas.map (fun rc => confx.2 rc.1 rc.2))
  let group_list := sortedDedup (filas.map (fun rc => confg.2 rc.1 rc.2))
  let datasets := group_list.map (fun group =>
    { label := group,
      data := labels.map (fun label => filas.countP (fun rc =>
        confx.2 rc.1 rc.2 == label && confg.2 rc.1 rc.2 == group)) })
  let values :=
    if datasets.isEmpty then []
    else (List.range labels.length).map (fun idx =>
      (datasets.map (fun ds => ds.data.getD idx 0)).sum)
  { labels := labels, values := values,
    title := "Casos por " ++ confx.1 ++ " y " ++ confg.1, datasets := datasets }

/-- Per-record work of the fallback branch of `_build_metric_dataset`:
extract one part per metric key and join with " | "; a record with no
parts is skipped (`if not parts: continue`). -/
def singleJoined (metric_keys : List String) (rc : MedicalForm × Case) :
    Option String :=
  let parts := metric_keys.map (fun k => (getConf k).2 rc.1 rc.2)
  if parts.isEmpty then none else some (strJoinSep " | " parts)

/-- The fallback (single-distribution) branch of `_build_metric_dataset`:
join the extracted parts with " | ", count per joined label. -/
def build_metric_single (filas : List (MedicalForm × Case))
    (metric_keys : List String) : MetricDataset :=
  let axis_names := metric_keys.filterMap (fun k => (attributeConfig k).map Prod.fst)
  let axis_names :=
    if axis_names = [] then
      match attributeConfig "comuna" with
      | some cfg => [cfg.1]
      | none => []
    else axis_names
  let labeled := filas.filterMap (singleJoined metric_keys)
  let labels := sortedDedup labeled
  let values := labels.map (fun lbl => labeled.count lbl)
  { labels := labels, values := values,
    title := "Casos por " ++ strJoinSep " y " axis_names,
    datasets := [{ label := "Casos", data := values }] }

/-- `_build_metric_dataset` (app.py). -/
def build_metric_dataset (filas : List (MedicalForm × Case))
    (metric_keys : List String) (chart_type : String) : MetricDataset :=
  if chart_type = "line" then build_metric_line filas metric_keys
  else if chart_type = "bar" ∧ 2 ≤ metric_keys.length then
    build_metric_bar2 filas (metric_keys.getD 0 "") (metric_keys.getD 1 "")
  else build_metric_single filas metric_keys

/-! ### The detail table -/

/-- A row of a single-distribution detail table.  `pct` is
`round((value / total) * 100, 1)`; Python's float `round` (round half to
even on the nearest double) is modelled by exact rational rounding to one
decimal. -/
structure SingleRow where
  label : String
  value : Nat
  pct : ℚ
deriving Repr, DecidableEq

/-- A row of a grouped or timeline detail table. -/
structure GroupedRow where
  label : String
  values : List Nat
  total : Nat
deriving Repr, DecidableEq

/-- The detail-table dictionary of `_build_detail_table`; `mode` says
which of the three Python dictionary shapes was produced and the fields
the other modes do not carry are empty. -/
structure DetailTable where
  mode : String
  axis_label : String
  row_header : String
  column_headers : List String
  columns : List String
  groupedRows : List GroupedRow
  singleRows : List SingleRow
  column_totals : List Nat
  grand_total : Nat
deriving Repr, DecidableEq

/-- Rounding to one decimal place on exact rationals. -/
def round1 (q : ℚ) : ℚ := (round (q * 10) : ℤ) / 10

/-- `_build_detail_table` (app.py).  `_as_int` is the identity on the
natural-valued counts produced by `_build_metric_dataset`. -/
def build_detail_table (labels : List String) (values : List Nat)
    (datasets : List Dataset) (metric_keys : List String)
    (chart_type : String) : DetailTable :=
  if chart_type = "bar" ∧ 2 ≤ metric_keys.length ∧ datasets ≠ [] then
    let rows := (List.range labels.length).map (fun idx =>
      let row_values := datasets.map (fun ds => ds.data.getD idx 0)
      { label := labels.getD idx "", values := row_values,
        total := row_values.sum : GroupedRow })
    let column_totals := datasets.map (fun ds => ds.data.sum)
    { mode := "grouped",
      axis_label := "",
      row_header := metric_label (some (metric_keys.getD 0 "")),
      column_headers := datasets.map (fun ds => pyOrS ds.label "Dato"),
      columns := [],
      groupedRows := rows,
      singleRows := [],
      column_totals := column_totals,
      grand_total := column_totals.sum }
  else if chart_type = "line" ∧ datasets ≠ [] ∧ labels ≠ [] then
    let rows := datasets.map (fun ds =>
      { label := pyOrS ds.label "Dato", values := ds.data,
        total := ds.data.sum : GroupedRow })
    let column_totals := (List.range labels.length).map (fun idx =>
      (rows.map (fun row => row.values.getD idx 0)).sum)
    { mode := "timeline",
      axis_label := "",
      row_header := metric_label metric_keys.head?,
      column_headers := [],
      columns := labels,
      groupedRows := rows,
      singleRows := [],
      column_totals := column_totals,
      grand_total := column_totals.sum }
  else
    let total := values.sum
    { mode := "single",
      axis_label := metric_label metric_keys.head?,
      row_header := "",
      column_headers := [],
      columns := [],
      groupedRows := [],
      singleRows := (labels.zip values).map (fun lv =>
        { label := lv.1, value := lv.2,
          pct := if total = 0 then 0 else round1 ((lv.2 : ℚ) / (total : ℚ) * 100) }),
      column_totals := [],
      grand_total := total }

/-! ### Report date filtering (_build_cosam_report) -/

/-- The date-filtering stage of `_build_cosam_report` (app.py): a
non-empty `desde` that parses as `%Y-%m-%d` keeps rows with
`created_at >= desde`; a non-empty `hasta` that parses keeps rows with
`created_at < hasta + one day`; an unparsable bound is dropped (the
`except` branch flashes a warning and clears the bound). -/
def cosam_report_rows (rows : List (MedicalForm × Case))
    (desdeRaw hastaRaw : Option String) : List (MedicalForm × Case) :=
  let fecha_desde_str := strTrim (pyOr desdeRaw "")
  let fecha_hasta_str := strTrim (pyOr hastaRaw "")
  let rows1 :=
    if fecha_desde_str ≠ "" then
      match strptimeYMD fecha_desde_str with
      | some ymd => rows.filter (fun rc =>
          dateMinutes ymd.1 ymd.2.1 ymd.2.2 0 0 ≤ rc.1.created_at)
      | none => rows
    else rows
  if fecha_hasta_str ≠ "" then
    match strptimeYMD fecha_hasta_str with
    | some ymd => rows1.filter (fun rc =>
        rc.1.created_at < dateMinutes ymd.1 ymd.2.1 ymd.2.2 0 0 + 1440)
    | none => rows1
  else rows1

/-- The pipeline of the reporting views: build the dataset, then build the
detail table from its components. -/
def metric_detail_table (filas : List (MedicalForm × Case))
    (metric_keys : List String) (chart_type : String) : DetailTable :=
  let md := build_metric_dataset filas metric_keys chart_type
  build_detail_table md.labels md.values md.datasets metric_keys chart_type

/-!
## Theorems

One theorem per claim (C1–C10), with helper lemmas and concrete records
preceding the claim theorems that use them.
-/

/-! ### C1: Accept has no status guard -/

/-- An already-accepted Case, used to exercise `cosam_accept` from a
status other than "enviado". -/
def c1Accepted : Case :=
  { id := 7, created_at := 100, form_id := 3, status := "aceptado",
    prioridad := some "bajo", atendido := false,
    sender_center_user_id := some 2, accepted_by_cosam_user_id := some 9 }

/-- C1, counterexample.  The claim says Accept on a Case whose status is
not "enviado" fails with IllegalTransition and leaves status and
prioridad unchanged.  On `c1Accepted` (status "aceptado" ≠ "enviado"),
`cosam_accept` with the valid priority "alto" instead succeeds and
overwrites `prioridad`: the handler has no status guard, so a second
Accept on the same Case succeeds again rather than failing. -/
theorem c1_counterexample :
    c1Accepted.status ≠ "enviado" ∧
    (cosam_accept c1Accepted (some "alto") 5).2 = AcceptResult.accepted ∧
    (cosam_accept c1Accepted (some "alto") 5).1.status = "aceptado" ∧
    (cosam_accept c1Accepted (some "alto") 5).1.prioridad = some "alto" ∧
    c1Accepted.prioridad ≠ some "alto" := by
  refine ⟨by decide, rfl, rfl, by decide, by decide⟩

/-- C1, amended: Accept validates only the priority.  With a submitted
priority whose lower-casing lies in {bajo, medio, alto} it succeeds from
any current status — including a Case that is not "enviado" — setting
`status := "aceptado"`, `prioridad` to the submitted priority and the
accepting user; with any other priority it reports InvalidPriority and
leaves the Case completely unchanged.  No IllegalTransition outcome
exists in the handler. -/
theorem c1_accept_behavior (c : Case) (raw : Option String) (uid : Nat) :
    (strLower (pyOr raw "") ∈ validPriorities →
      cosam_accept c raw uid =
        ({ c with
            prioridad := some (strLower (pyOr raw "")),
            status := "aceptado",
            accepted_by_cosam_user_id := some uid }, AcceptResult.accepted)) ∧
    (strLower (pyOr raw "") ∉ validPriorities →
      cosam_accept c raw uid = (c, AcceptResult.invalidPriority)) := by
  constructor
  · intro h
    simp [cosam_accept, h]
  · intro h
    simp [cosam_accept, h]

/-- Witness for `c1_accept_behavior` at a concrete accepted Case and the
concrete priority "alto". -/
theorem c1_accept_behavior_witness :
    cosam_accept c1Accepted (some "alto") 4 =
      ({ c1Accepted with
          prioridad := some "alto",
          status := "aceptado",
          accepted_by_cosam_user_id := some 4 }, AcceptResult.accepted) :=
  (c1_accept_behavior c1Accepted (some "alto") 4).1 (by decide)

/-! ### C2: status transitions can skip "aceptado" -/

/-- A freshly submitted Case (status "enviado"). -/
def c2Submitted : Case := submitCase 1 1 0 2 none

/-- C2, counterexample.  The claim says no operation ever moves a Case
from "enviado" directly to "atendido" or "devuelto" without passing
through "aceptado".  `cosam_attend` has no precondition on the current
status: applied to a freshly submitted Case it produces the status trace
["enviado", "atendido"], and `cosam_return` likewise produces
["enviado", "devuelto"] — both skip "aceptado". -/
theorem c2_counterexample :
    c2Submitted.status = "enviado" ∧
    statusTrace c2Submitted [CosamOp.attend] = ["enviado", "atendido"] ∧
    statusTrace c2Submitted [CosamOp.ret none] = ["enviado", "devuelto"] := by
  refine ⟨rfl, rfl, rfl⟩

/-- Every operation either moves the status to its fixed target or (for
Accept with an invalid priority) leaves it unchanged. -/
theorem applyOp_status_cases (c : Case) (op : CosamOp) :
    (applyOp c op).status ∈ allStatuses ∨ (applyOp c op).status = c.status := by
  cases op with
  | accept p uid =>
    by_cases h : strLower (pyOr p "") ∈ validPriorities
    · left
      simp [applyOp, cosam_accept, h, allStatuses]
    · right
      simp [applyOp, cosam_accept, h]
  | attend =>
    left
    simp [applyOp, cosam_attend, allStatuses]
  | ret r =>
    left
    simp [applyOp, cosam_return, allStatuses]

/-- Any status observed along a trace lies in the four-value status set,
provided the starting status does. -/
theorem statusTrace_mem_allStatuses (ops : List CosamOp) :
    ∀ c : Case, c.status ∈ allStatuses →
      ∀ st ∈ statusTrace c ops, st ∈ allStatuses := by
  induction ops with
  | nil =>
    intro c hc st hst
    simp [statusTrace] at hst
    simpa [hst] using hc
  | cons op ops ih =>
    intro c hc st hst
    simp only [statusTrace, List.mem_cons] at hst
    rcases hst with h | h
    · simpa [h] using hc
    · refine ih (applyOp c op) ?_ st h
      rcases applyOp_status_cases c op with h2 | h2
      · exact h2
      · simpa [h2] using hc

/-- C2, amended: every status a Case takes on is one of
{enviado, aceptado, atendido, devuelto}, and each operation drives the
status to its fixed target regardless of the current status — Submit to
"enviado", Accept (valid priority) to "aceptado", Attend to "atendido",
Return to "devuelto".  Because Attend and Return do not check the prior
status, a Case may move from "enviado" directly to "atendido" or
"devuelto" without passing through "aceptado". -/
theorem c2_status_machine :
    (∀ c : Case, (cosam_attend c).status = "atendido") ∧
    (∀ (c : Case) (r : Option String), (cosam_return c r).1.status = "devuelto") ∧
    (∀ (c : Case) (p : Option String) (uid : Nat),
        (cosam_accept c p uid).1.status = "aceptado" ∨
        (cosam_accept c p uid).1 = c) ∧
    (∀ (formId cid t sender : Nat) (prioRaw : Option String),
        (submitCase formId cid t sender prioRaw).status = "enviado") ∧
    (∀ (formId cid t sender : Nat) (prioRaw : Option String)
        (ops : List CosamOp),
        ∀ st ∈ statusTrace (submitCase formId cid t sender prioRaw) ops,
          st ∈ allStatuses) := by
  refine ⟨fun c => rfl, fun c r => rfl, ?_, fun _ _ _ _ _ => rfl, ?_⟩
  · intro c p uid
    by_cases h : strLower (pyOr p "") ∈ validPriorities
    · left
      simp [cosam_accept, h]
    · right
      simp [cosam_accept, h]
  · intro formId cid t sender prioRaw ops st hst
    refine statusTrace_mem_allStatuses ops _ ?_ st hst
    simp [submitCase, allStatuses]

/-- Witness for `c2_status_machine` on a concrete two-operation trace. -/
theorem c2_status_machine_witness :
    "devuelto" ∈ allStatuses :=
  (c2_status_machine.2.2.2.2 1 1 0 2 none [CosamOp.attend, CosamOp.ret none])
    "devuelto" (by decide)

/-! ### C3: triage ordering -/

/-- Case with prioridad "medio" created at time 1. -/
def c3Medio1 : Case :=
  { id := 1, created_at := 1, form_id := 1, status := "enviado",
    prioridad := some "medio", atendido := false,
    sender_center_user_id := some 1, accepted_by_cosam_user_id := none }

/-- Case with prioridad "alto" created at time 2. -/
def c3Alto2 : Case :=
  { id := 2, created_at := 2, form_id := 2, status := "enviado",
    prioridad := some "alto", atendido := false,
    sender_center_user_id := some 1, accepted_by_cosam_user_id := none }

/-- Case with no prioridad, created at time 3. -/
def c3None3 : Case :=
  { id := 3, created_at := 3, form_id := 3, status := "enviado",
    prioridad := none, atendido := false,
    sender_center_user_id := some 1, accepted_by_cosam_user_id := none }

/-- Case with prioridad "alto" created at time 4. -/
def c3Alto4 : Case :=
  { id := 4, created_at := 4, form_id := 4, status := "enviado",
    prioridad := some "alto", atendido := false,
    sender_center_user_id := some 1, accepted_by_cosam_user_id := none }

/-- C3: both triage views return exactly their filtered Cases, pairwise
ordered by priority rank ascending (alto = 0, medio = 1, anything else or
absent = 2) and, within equal rank, by creation time descending; on the
concrete Cases [medio@1, alto@2, ∅@3, alto@4] the inbox order is
[alto@4, alto@2, medio@1, ∅@3]. -/
theorem c3_triage_ordering :
    (∀ cases : List Case,
        List.Sorted triageOrder (cosam_inbox cases) ∧
        List.Perm (cosam_inbox cases)
          (cases.filter (fun c => c.status == "enviado"))) ∧
    (∀ cases : List Case,
        List.Sorted triageOrder (cosam_pacientes cases) ∧
        List.Perm (cosam_pacientes cases)
          (cases.filter (fun c => c.status == "aceptado" && c.atendido == false))) ∧
    cosam_inbox [c3Medio1, c3Alto2, c3None3, c3Alto4] =
      [c3Alto4, c3Alto2, c3Medio1, c3None3] := by
  refine ⟨fun cases => ⟨?_, ?_⟩, fun cases => ⟨?_, ?_⟩, ?_⟩
  · exact List.sorted_insertionSort triageOrder _
  · exact List.perm_insertionSort triageOrder _
  · exact List.sorted_insertionSort triageOrder _
  · exact List.perm_insertionSort triageOrder _
  · decide

/-! ### C4: scheduling conflict checker -/

/-- C4: on the Appointments at exactly the proposed datetime (excluding,
when rescheduling, the Case's own Appointment — a truthy
`ignore_case_id`), the checker reports the doctor conflict whenever one
exists, otherwise the room conflict whenever one exists, otherwise no
conflict; so when both conflicts exist only the doctor conflict is
surfaced, and only exact-timestamp matches are ever considered. -/
theorem c4_validate_schedule_slot (appointments : List Appointment)
    (when : Nat) (doctor place : String) (ignore : Option Nat) :
    ((∃ a ∈ slotBase appointments when ignore, a.doctor = doctor) →
        validate_schedule_slot appointments when doctor place ignore =
          some (doctorConflictMsg doctor)) ∧
    ((¬ ∃ a ∈ slotBase appointments when ignore, a.doctor = doctor) →
      (∃ a ∈ slotBase appointments when ignore, a.place = place) →
        validate_schedule_slot appointments when doctor place ignore =
          some (placeConflictMsg place)) ∧
    ((¬ ∃ a ∈ slotBase appointments when ignore, a.doctor = doctor) →
      (¬ ∃ a ∈ slotBase appointments when ignore, a.place = place) →
        validate_schedule_slot appointments when doctor place ignore = none) ∧
    (∀ a : Appointment,
        a ∈ slotBase appointments when ignore ↔
          a ∈ appointments ∧ a.scheduled_at = when ∧
            ∀ cid, ignore = some cid → cid ≠ 0 → a.case_id ≠ cid) := by
  refine ⟨?_, ?_, ?_, ?_⟩
  · rintro ⟨a, ha, hd⟩
    have hsome : ((slotBase appointments when ignore).find?
        (fun a => a.doctor == doctor)).isSome := by
      rw [List.find?_isSome]
      exact ⟨a, ha, by simp [hd]⟩
    rcases Option.isSome_iff_exists.mp hsome with ⟨b, hb⟩
    simp [validate_schedule_slot, hb]
  · intro hnd hp
    have hnone : (slotBase appointments when ignore).find?
        (fun a => a.doctor == doctor) = none := by
      rw [List.find?_eq_none]
      intro x hx hbeq
      exact hnd ⟨x, hx, by simpa using hbeq⟩
    rcases hp with ⟨a, ha, hpl⟩
    have hsome : ((slotBase appointments when ignore).find?
        (fun a => a.place == place)).isSome := by
      rw [List.find?_isSome]
      exact ⟨a, ha, by simp [hpl]⟩
    rcases Option.isSome_iff_exists.mp hsome with ⟨b, hb⟩
    simp [validate_schedule_slot, hnone, hb]
  · intro hnd hnp
    have hnone : (slotBase appointments when ignore).find?
        (fun a => a.doctor == doctor) = none := by
      rw [List.find?_eq_none]
      intro x hx hbeq
      exact hnd ⟨x, hx, by simpa using hbeq⟩
    have hnone2 : (slotBase appointments when ignore).find?
        (fun a => a.place == place) = none := by
      rw [List.find?_eq_none]
      intro x hx hbeq
      exact hnp ⟨x, hx, by simpa using hbeq⟩
    simp [validate_schedule_slot, hnone, hnone2]
  · intro a
    unfold slotBase
    cases ignore with
    | none => simp [List.mem_filter, and_assoc]
    | some cid =>
      by_cases hcid : cid = 0
      · subst hcid
        simp [List.mem_filter, and_assoc]
      · simp only [if_pos hcid, List.mem_filter, List.mem_filter]
        constructor
        · rintro ⟨⟨ha, hat⟩, hne⟩
          refine ⟨ha, by simpa using hat, ?_⟩
          rintro cid2 h h0
          cases h
          simpa using hne
        · rintro ⟨ha, hat, hne⟩
          exact ⟨⟨ha, by simpa using hat⟩, by simpa using hne cid rfl hcid⟩

/-- Appointment of case 1: 2024-03-01 10:00, Dr. A, Box 1. -/
def c4ApptA : Appointment :=
  { id := 1, case_id := 1, scheduled_at := dateMinutes 2024 3 1 10 0,
    doctor := "Dr. A", place := "Box 1", notes := "" }

/-- Appointment of case 2: same slot, Dr. B, Box 2. -/
def c4ApptB : Appointment :=
  { id := 2, case_id := 2, scheduled_at := dateMinutes 2024 3 1 10 0,
    doctor := "Dr. B", place := "Box 2", notes := "" }

/-- Witness for `c4_validate_schedule_slot`: a slot where both a doctor
conflict (with `c4ApptA`) and a room conflict (with `c4ApptB`) exist
surfaces only the doctor conflict. -/
theorem c4_validate_schedule_slot_witness :
    validate_schedule_slot [c4ApptA, c4ApptB] (dateMinutes 2024 3 1 10 0)
      "Dr. A" "Box 2" none = some (doctorConflictMsg "Dr. A") :=
  (c4_validate_schedule_slot [c4ApptA, c4ApptB] (dateMinutes 2024 3 1 10 0)
    "Dr. A" "Box 2" none).1 (by decide)

/-! ### C5: reschedule with no existing appointment -/

/-- An accepted Case with no appointment, for the reschedule claims. -/
def c5Caso : Case :=
  { id := 3, created_at := 50, form_id := 9, status := "aceptado",
    prioridad := some "alto", atendido := false,
    sender_center_user_id := some 1, accepted_by_cosam_user_id := some 2 }

/-- A valid reschedule POST submission. -/
def c5PostReq : ScheduleRequest :=
  { method := "POST", date := some "2024-03-01", time := some "10:00",
    place := some "Box 1", doctor := some "Dr. A", notes := some "" }

/-- C5, counterexample.  The claim says Reschedule on a Case with no
existing Appointment redirects the caller to Schedule for every request.
The handler checks `if not ap and request.method == "GET"`, so only GET
requests are redirected: a POST with no Appointment is processed in
place — here it succeeds and creates the Appointment itself instead of
redirecting. -/
theorem c5_counterexample :
    (cosam_reschedule c5Caso none [] c5PostReq 10).1 ≠
        ScheduleOutcome.redirectSchedule ∧
    (cosam_reschedule c5Caso none [] c5PostReq 10).1 = ScheduleOutcome.updated ∧
    (cosam_reschedule c5Caso none [] c5PostReq 10).2 =
      some { id := 10, case_id := 3, scheduled_at := dateMinutes 2024 3 1 10 0,
             doctor := "Dr. A", place := "Box 1", notes := "" } := by
  refine ⟨by decide, by decide, by decide⟩

/-- C5, amended: Reschedule on a Case with no existing Appointment
redirects the caller to Schedule on GET requests; a POST request is never
redirected to Schedule — it is processed by the handler itself (and, when
validation passes, creates the missing Appointment directly, as the
counterexample shows). -/
theorem c5_reschedule_redirect (caso : Case) (appointments : List Appointment)
    (req : ScheduleRequest) (newId : Nat) :
    (req.method = "GET" →
      cosam_reschedule caso none appointments req newId =
        (ScheduleOutcome.redirectSchedule, none)) ∧
    (∀ ap : Option Appointment, req.method = "POST" →
      (cosam_reschedule caso ap appointments req newId).1 ≠
        ScheduleOutcome.redirectSchedule) := by
  constructor
  · intro h
    simp [cosam_reschedule, h]
  · intro ap h
    have hng : ¬ (ap = none ∧ req.method = "GET") := by
      rintro ⟨-, hg⟩
      rw [h] at hg
      exact absurd hg (by decide)
    unfold cosam_reschedule
    rw [if_neg hng, if_pos h]
    cases ap <;>
      · simp only []
        intro hcontra
        (repeat' split at hcontra) <;> simp at hcontra

/-- Witness for `c5_reschedule_redirect`: a concrete GET with no
appointment is redirected to the Schedule handler. -/
theorem c5_reschedule_redirect_witness :
    cosam_reschedule c5Caso none []
      { method := "GET", date := none, time := none, place := none,
        doctor := none, notes := none } 10 =
      (ScheduleOutcome.redirectSchedule, none) :=
  (c5_reschedule_redirect c5Caso []
    { method := "GET", date := none, time := none, place := none,
      doctor := none, notes := none } 10).1 rfl

/-! ### C6: two-dimension bar cross-tabulation -/

/-- A Case row shared by the concrete aggregation records. -/
def c6Caso : Case :=
  { id := 1, created_at := 0, form_id := 1, status := "aceptado",
    prioridad := none, atendido := false,
    sender_center_user_id := none, accepted_by_cosam_user_id := none }

/-- Form with comuna "A" and sexo "M". -/
def c6FormAM : MedicalForm :=
  { id := 1, created_at := 0, comuna := some "A", sexo := some "M",
    edad := none, es_ges := none, tipo_consulta := none, patologias_ges := none }

/-- Form with comuna "A" and sexo "F". -/
def c6FormAF : MedicalForm :=
  { id := 2, created_at := 0, comuna := some "A", sexo := some "F",
    edad := none, es_ges := none, tipo_consulta := none, patologias_ges := none }

/-- Form with comuna "B" and sexo "M". -/
def c6FormBM : MedicalForm :=
  { id := 3, created_at := 0, comuna := some "B", sexo := some "M",
    edad := none, es_ges := none, tipo_consulta := none, patologias_ges := none }

/-- The record set {(comuna=A,sexo=M), (comuna=A,sexo=F), (comuna=B,sexo=M)}. -/
def c6Filas : List (MedicalForm × Case) :=
  [(c6FormAM, c6Caso), (c6FormAF, c6Caso), (c6FormBM, c6Caso)]

/-- C6: for every record set and two dimension keys with a bar chart, the
category axis is the sorted distinct first-dimension labels, there is one
series per sorted distinct second-dimension value, and each cell counts
the records matching both labels; on the concrete records
{(A,M), (A,F), (B,M)} grouped by (comuna, sexo) this yields labels
[A, B], series F = [1, 0] and M = [1, 1], and the grouped detail table
has row totals A = 2 and B = 1, column totals [1, 2] and grand total 3. -/
theorem c6_bar_crosstab :
    (∀ (filas : List (MedicalForm × Case)) (k1 k2 : String),
        (build_metric_dataset filas [k1, k2] "bar").labels =
          sortedDedup (filas.map (fun rc => (getConf k1).2 rc.1 rc.2)) ∧
        (build_metric_dataset filas [k1, k2] "bar").datasets.map Dataset.label =
          sortedDedup (filas.map (fun rc => (getConf k2).2 rc.1 rc.2)) ∧
        ∀ ds ∈ (build_metric_dataset filas [k1, k2] "bar").datasets,
          ds.data = (build_metric_dataset filas [k1, k2] "bar").labels.map
            (fun lbl => filas.countP (fun rc =>
              (getConf k1).2 rc.1 rc.2 == lbl &&
              (getConf k2).2 rc.1 rc.2 == ds.label))) ∧
    (build_metric_dataset c6Filas ["comuna", "sexo"] "bar").labels = ["A", "B"] ∧
    (build_metric_dataset c6Filas ["comuna", "sexo"] "bar").datasets =
      [{ label := "F", data := [1, 0] }, { label := "M", data := [1, 1] }] ∧
    metric_detail_table c6Filas ["comuna", "sexo"] "bar" =
      { mode := "grouped", axis_label := "", row_header := "Comuna",
        column_headers := ["F", "M"], columns := [],
        groupedRows := [{ label := "A", values := [1, 1], total := 2 },
                        { label := "B", values := [0, 1], total := 1 }],
        singleRows := [],
        column_totals := [1, 2],
        grand_total := 3 } := by
  refine ⟨?_, by decide, by decide, by decide⟩
  intro filas k1 k2
  have hbar : build_metric_dataset filas [k1, k2] "bar" =
      build_metric_bar2 filas k1 k2 := by
    simp [build_metric_dataset]
  rw [hbar]
  refine ⟨rfl, ?_, ?_⟩
  · unfold build_metric_bar2
    simp [List.map_map, Function.comp_def]
  · intro ds hds
    unfold build_metric_bar2 at hds ⊢
    simp only [List.mem_map] at hds
    obtain ⟨g, hg, rfl⟩ := hds
    rfl

/-- Witness for `c6_bar_crosstab`: the "M" series of the concrete record
set counts one record in each comuna. -/
theorem c6_bar_crosstab_witness :
    ({ label := "M", data := [1, 1] } : Dataset).data =
      (build_metric_dataset c6Filas ["comuna", "sexo"] "bar").labels.map
        (fun lbl => c6Filas.countP (fun rc =>
          (getConf "comuna").2 rc.1 rc.2 == lbl &&
          (getConf "sexo").2 rc.1 rc.2 ==
            ({ label := "M", data := [1, 1] } : Dataset).label)) :=
  ((c6_bar_crosstab.1 c6Filas "comuna" "sexo").2.2
    { label := "M", data := [1, 1] } (by decide))

/-! ### C7: detail-table totals -/

/-- Summing, over the sorted distinct members of a list, the number of
occurrences of each member recovers the length of the list. -/
theorem sum_map_count_sortedDedup (l : List String) :
    ((sortedDedup l).map (fun x => l.count x)).sum = l.length := by
  have hperm : List.Perm (sortedDedup l) l.dedup :=
    List.perm_insertionSort _ _
  have h2 := hperm.map (fun x => l.count x)
  rw [h2.sum_eq]
  exact List.sum_map_count_dedup_eq_length l

/-- With at least one metric key every record produces a joined label, so
the labelled list has one entry per record. -/
theorem length_filterMap_singleJoined (filas : List (MedicalForm × Case))
    (metric_keys : List String) (h : metric_keys ≠ []) :
    (filas.filterMap (singleJoined metric_keys)).length = filas.length := by
  cases metric_keys with
  | nil => exact absurd rfl h
  | cons k ks =>
    induction filas with
    | nil => rfl
    | cons rc t ih =>
      simp [List.filterMap_cons, singleJoined, ih]

/-- C7: in single mode the row values of the detail table sum to the
number of filtered input records (and so does `grand_total`); in grouped
mode the column totals sum to `grand_total`. -/
theorem c7_detail_table_totals :
    (∀ (filas : List (MedicalForm × Case)) (metric_keys : List String)
        (chart_type : String),
        metric_keys ≠ [] → chart_type ≠ "line" →
        ¬(chart_type = "bar" ∧ 2 ≤ metric_keys.length) →
        (metric_detail_table filas metric_keys chart_type).mode = "single" ∧
        ((metric_detail_table filas metric_keys chart_type).singleRows.map
            SingleRow.value).sum = filas.length ∧
        (metric_detail_table filas metric_keys chart_type).grand_total =
          filas.length) ∧
    (∀ (labels : List String) (values : List Nat) (datasets : List Dataset)
        (metric_keys : List String),
        2 ≤ metric_keys.length → datasets ≠ [] →
        (build_detail_table labels values datasets metric_keys "bar").mode =
            "grouped" ∧
        (build_detail_table labels values datasets metric_keys
            "bar").column_totals.sum =
          (build_detail_table labels values datasets metric_keys
            "bar").grand_total) := by
  constructor
  · intro filas metric_keys chart_type hk hline hbar
    have hmd : build_metric_dataset filas metric_keys chart_type =
        build_metric_single filas metric_keys := by
      unfold build_metric_dataset
      rw [if_neg hline, if_neg hbar]
    have hnotbar : ¬ (chart_type = "bar" ∧ 2 ≤ metric_keys.length ∧
        (build_metric_single filas metric_keys).datasets ≠ []) :=
      fun h => hbar ⟨h.1, h.2.1⟩
    have hnotline : ¬ (chart_type = "line" ∧
        (build_metric_single filas metric_keys).datasets ≠ [] ∧
        (build_metric_single filas metric_keys).labels ≠ []) :=
      fun h => hline h.1
    unfold metric_detail_table
    rw [hmd]
    unfold build_detail_table
    rw [if_neg hnotbar, if_neg hnotline]
    have hvals : (build_metric_single filas metric_keys).values =
        (sortedDedup (filas.filterMap (singleJoined metric_keys))).map
          (fun lbl => (filas.filterMap (singleJoined metric_keys)).count lbl) :=
      rfl
    have hlabels : (build_metric_single filas metric_keys).labels =
        sortedDedup (filas.filterMap (singleJoined metric_keys)) := rfl
    have hsum : (build_metric_single filas metric_keys).values.sum =
        filas.length := by
      rw [hvals, sum_map_count_sortedDedup]
      exact length_filterMap_singleJoined filas metric_keys hk
    have hlen : (build_metric_single filas metric_keys).values.length ≤
        (build_metric_single filas metric_keys).labels.length := by
      rw [hvals, hlabels, List.length_map]
    refine ⟨rfl, ?_, hsum⟩
    show ((((build_metric_single filas metric_keys).labels.zip
        (build_metric_single filas metric_keys).values).map _).map
          SingleRow.value).sum = filas.length
    rw [List.map_map]
    have hcomp : (SingleRow.value ∘ fun lv : String × Nat =>
        ({ label := lv.1, value := lv.2,
           pct := if (build_metric_single filas metric_keys).values.sum = 0
             then 0
             else round1 ((lv.2 : ℚ) /
               ((build_metric_single filas metric_keys).values.sum : ℚ) * 100) }
          : SingleRow)) = Prod.snd := funext fun lv => rfl
    rw [hcomp, List.map_snd_zip _ _ hlen, hsum]
  · intro labels values datasets metric_keys h1 h2
    constructor
    · simp [build_detail_table, h1, h2]
    · simp [build_detail_table, h1, h2]

/-- Witness for `c7_detail_table_totals`: a one-record pie-chart detail
table sums to one, and a concrete grouped table's column totals sum to
its grand total. -/
theorem c7_detail_table_totals_witness :
    ((metric_detail_table [(c6FormAM, c6Caso)] ["comuna"] "pie").singleRows.map
        SingleRow.value).sum = 1 ∧
    (build_detail_table ["A"] [2] [{ label := "X", data := [1] },
        { label := "Y", data := [1] }] ["comuna", "sexo"]
        "bar").column_totals.sum =
      (build_detail_table ["A"] [2] [{ label := "X", data := [1] },
        { label := "Y", data := [1] }] ["comuna", "sexo"] "bar").grand_total :=
  ⟨(c7_detail_table_totals.1 [(c6FormAM, c6Caso)] ["comuna"] "pie"
      (by decide) (by decide) (by decide)).2.1,
   (c7_detail_table_totals.2 ["A"] [2] [{ label := "X", data := [1] },
      { label := "Y", data := [1] }] ["comuna", "sexo"]
      (by decide) (by decide)).2⟩

/-! ### C8: dimension-list truncation -/

/-- The accumulation step never changes the head of a non-empty key
list: it only appends. -/
theorem metricStep_cons (a : String) (t : List String) (raw : Option String) :
    ∃ u, metricStep (a :: t) raw = a :: u := by
  simp only [metricStep]
  split
  · exact ⟨t ++ [strTrim (raw.getD "")], rfl⟩
  · exact ⟨t, rfl⟩

/-- An absent parameter leaves the accumulated key list unchanged. -/
theorem metricStep_none (keys : List String) : metricStep keys none = keys := by
  unfold metricStep
  rw [if_neg]
  rintro ⟨hne, -, -⟩
  exact hne rfl

/-- C8: a dimension list longer than the chart shape's supported count is
silently truncated to the shape's limit (pie 1, bar 2, line 1) of the
untruncated selection, rather than raising an error; in particular a pie
request with three keys supplied parses — and therefore aggregates —
exactly as the request with only its first (valid) key supplied. -/
theorem c8_truncation :
    (∀ p : MetricParams, parse_metric_keys p (some "pie") =
        (parse_metric_keys p none).take 1) ∧
    (∀ p : MetricParams, parse_metric_keys p (some "bar") =
        (parse_metric_keys p none).take 2) ∧
    (∀ p : MetricParams, parse_metric_keys p (some "line") =
        (parse_metric_keys p none).take 1) ∧
    (∀ (k1 k2 k3 : String) (filas : List (MedicalForm × Case)),
        strTrim k1 ≠ "" → (attributeConfig (strTrim k1)).isSome →
        build_metric_dataset filas
            (parse_metric_keys ⟨some k1, some k2, some k3⟩ (some "pie")) "pie" =
          build_metric_dataset filas
            (parse_metric_keys ⟨some k1, none, none⟩ (some "pie")) "pie") := by
  refine ⟨?_, ?_, ?_, ?_⟩
  · intro p
    simp [parse_metric_keys]
  · intro p
    simp [parse_metric_keys]
  · intro p
    simp [parse_metric_keys]
  · intro k1 k2 k3 filas h1 h2
    have hstep1 : metricStep [] (some k1) = [strTrim k1] := by
      unfold metricStep
      rw [if_pos]
      · rfl
      · exact ⟨h1, h2, by simp⟩
    obtain ⟨t2, hstep2⟩ := metricStep_cons (strTrim k1) [] (some k2)
    obtain ⟨t3, hstep3⟩ := metricStep_cons (strTrim k1) t2 (some k3)
    have hfull : parse_metric_keys ⟨some k1, some k2, some k3⟩ (some "pie") =
        [strTrim k1] := by
      unfold parse_metric_keys
      rw [hstep1, hstep2, hstep3]
      simp
    have hone : parse_metric_keys ⟨some k1, none, none⟩ (some "pie") =
        [strTrim k1] := by
      unfold parse_metric_keys
      rw [hstep1, metricStep_none, metricStep_none]
      simp
    rw [hfull, hone]

/-- Witness for `c8_truncation`: with three valid keys supplied, a pie
request aggregates exactly as with only "comuna" supplied. -/
theorem c8_truncation_witness :
    build_metric_dataset []
        (parse_metric_keys ⟨some "comuna", some "sexo", some "es_ges"⟩
          (some "pie")) "pie" =
      build_metric_dataset []
        (parse_metric_keys ⟨some "comuna", none, none⟩ (some "pie")) "pie" :=
  c8_truncation.2.2.2 "comuna" "sexo" "es_ges" [] (by decide) (by decide)

/-! ### C9: unparsable date bounds are dropped -/

/-- The absent bound produces the empty (falsy) filter string. -/
theorem strTrim_pyOr_none : strTrim (pyOr none "") = "" := rfl

/-- C9: a `desde` bound whose stripped value does not parse as
`%Y-%m-%d` yields exactly the record set of the same request without a
`desde` bound, and likewise for `hasta`; the filter function is total, so
no exception escapes. -/
theorem c9_unparsable_date (rows : List (MedicalForm × Case))
    (desde hasta : Option String) :
    (strptimeYMD (strTrim (pyOr desde "")) = none →
        cosam_report_rows rows desde hasta = cosam_report_rows rows none hasta) ∧
    (strptimeYMD (strTrim (pyOr hasta "")) = none →
        cosam_report_rows rows desde hasta = cosam_report_rows rows desde none) := by
  constructor
  · intro h
    unfold cosam_report_rows
    by_cases hne : strTrim (pyOr desde "") = "" <;>
      simp [hne, h, strTrim_pyOr_none]
  · intro h
    unfold cosam_report_rows
    by_cases hne : strTrim (pyOr hasta "") = "" <;>
      simp [hne, h, strTrim_pyOr_none]

/-- Form record used by the report-filter witness. -/
def c9Form : MedicalForm :=
  { id := 4, created_at := 500, comuna := some "A", sexo := some "F",
    edad := some "30", es_ges := none, tipo_consulta := none,
    patologias_ges := none }

/-- Case record used by the report-filter witness. -/
def c9Caso : Case :=
  { id := 4, created_at := 500, form_id := 4, status := "enviado",
    prioridad := none, atendido := false,
    sender_center_user_id := some 1, accepted_by_cosam_user_id := none }

/-- Witness for `c9_unparsable_date`: the unparsable bound "2024-13-01"
(month 13) filters exactly as an absent bound. -/
theorem c9_unparsable_date_witness :
    cosam_report_rows [(c9Form, c9Caso)] (some "2024-13-01") none =
      cosam_report_rows [(c9Form, c9Caso)] none none :=
  (c9_unparsable_date [(c9Form, c9Caso)] (some "2024-13-01") none).1 (by decide)

/-! ### C10: parsed dimension keys are valid and duplicate-free -/

/-- Registry membership test of `_parse_metric_keys` agrees with the key
list of the registry. -/
theorem attributeConfig_isSome_iff (k : String) :
    (attributeConfig k).isSome = true ↔ k ∈ attributeKeys := by
  unfold attributeConfig attributeKeys
  split_ifs <;> simp_all

/-- The accumulation step preserves "all keys are registry keys". -/
theorem metricStep_mem (keys : List String) (raw : Option String)
    (h : ∀ k ∈ keys, k ∈ attributeKeys) :
    ∀ k ∈ metricStep keys raw, k ∈ attributeKeys := by
  simp only [metricStep]
  split_ifs with hcond
  · intro k hk
    rcases List.mem_append.mp hk with hk | hk
    · exact h k hk
    · have hkv : k = strTrim (raw.getD "") := by simpa using hk
      subst hkv
      exact (attributeConfig_isSome_iff _).mp hcond.2.1
  · exact h

/-- The accumulation step preserves freedom from duplicates. -/
theorem metricStep_nodup (keys : List String) (raw : Option String)
    (h : keys.Nodup) : (metricStep keys raw).Nodup := by
  simp only [metricStep]
  split_ifs with hcond
  · simp [List.nodup_append, h, hcond.2.2]
  · exact h

/-- Both invariants pass to any `take`-prefix of the key list. -/
theorem keysInvariant (l : List String)
    (hm : ∀ k ∈ l, k ∈ attributeKeys) (hn : l.Nodup) (n : Nat) :
    (∀ k ∈ l.take n, k ∈ attributeKeys) ∧ (l.take n).Nodup :=
  ⟨fun k hk => hm k ((List.take_sublist n l).subset hk),
   hn.sublist (List.take_sublist n l)⟩

/-- C10: for every query-parameter mapping and chart type, the parsed
dimension keys all come from the fixed registry and contain no
duplicates (unknown, empty, and already-selected values are skipped
before the shape limit is applied); in particular
metric=comuna, metric2=comuna, metric3=sexo for a bar chart parses to
["comuna", "sexo"]. -/
theorem c10_parse_metric_keys :
    (∀ (p : MetricParams) (chart : Option String),
        (∀ k ∈ parse_metric_keys p chart, k ∈ attributeKeys) ∧
        (parse_metric_keys p chart).Nodup) ∧
    parse_metric_keys ⟨some "comuna", some "comuna", some "sexo"⟩
        (some "bar") = ["comuna", "sexo"] := by
  refine ⟨?_, by decide⟩
  intro p chart
  have hmem0 : ∀ k ∈ metricStep (metricStep (metricStep [] p.metric)
      p.metric2) p.metric3, k ∈ attributeKeys :=
    metricStep_mem _ _ (metricStep_mem _ _ (metricStep_mem _ _
      (fun k hk => absurd hk (List.not_mem_nil k))))
  have hnd0 : (metricStep (metricStep (metricStep [] p.metric)
      p.metric2) p.metric3).Nodup :=
    metricStep_nodup _ _ (metricStep_nodup _ _
      (metricStep_nodup _ _ List.nodup_nil))
  simp only [parse_metric_keys]
  split_ifs <;>
    first
      | exact keysInvariant _ (by decide) (by decide) _
      | exact keysInvariant _ hmem0 hnd0 _
      | exact ⟨by decide, by decide⟩
      | exact ⟨hmem0, hnd0⟩

end SSMO
